import Mathlib

set_option maxRecDepth 40000

/-!
Verification development for the FF_Sim7000 asynchronous SMS driver
(single source file FF_Sim7000.h).

Shallow embedding conventions:
* C byte strings (char arrays / Arduino String contents) are `List Nat`
  of byte values; a list never contains the terminating NUL.
* Machine integers are `Nat` with an explicit `% 2 ^ w` wherever the C
  width can overflow on the touched path (`uint16_t` lengths and ids,
  `uint8_t` chunk counters).  Plain monotone counters whose wrap is
  irrelevant to any property stay `Nat`.
* The external collaborators (PDU codec, serial transport, GPIO, wall
  clock, tracing) are out of scope per the specification; the codec is
  passed in as an oracle value, transport writes are logged in `txLog`,
  `millis()` is a `now : Nat` parameter, and tracing is dropped.
* Member-function-pointer continuations are the `NextStep` enumeration;
  invoking a callback is returned as an `Event` instead of being run
  inline, so every step function is a pure state transformer.
-/

/-- ASCII string literal to byte list (all modem strings are ASCII). -/
def strBytes (s : String) : List Nat := s.data.map Char.toNat

/-- Arduino `String::substring(l, r)`: bytes in `[l, r)`, clamped to the
string bounds (`l ≤ r` at every call site in the source). -/
def substringM (s : List Nat) (l r : Nat) : List Nat := (s.drop l).take (r - l)

/-- C `strstr`: index of the first occurrence of `needle` in `hay`
(`some 0` for the empty needle, like `strstr` returning `hay`). -/
def strstrIdx (hay needle : List Nat) : Option Nat :=
  (List.range (hay.length + 1)).find? (fun i => needle.isPrefixOf (hay.drop i))

/-- C `strstr(hay, needle) != NULL`. -/
def containsSub (hay needle : List Nat) : Bool := (strstrIdx hay needle).isSome

/-- `DEFAULT_ANSWER` "OK". -/
def okAnswer : List Nat := strBytes "OK"

/-- `CREG_MSG` "+CREG: ". -/
def cregMsg : List Nat := strBytes "+CREG: "

/-- `CREG_QUERY` "+CREG?". -/
def cregQuery : List Nat := strBytes "+CREG?"

/-- `SMS_INDICATOR` "+CMT: ". -/
def smsIndicator : List Nat := strBytes "+CMT: "

/-- "+CMS ERROR" device error marker. -/
def cmsError : List Nat := strBytes "+CMS ERROR"

/-- "+CME ERROR" device error marker. -/
def cmeError : List Nat := strBytes "+CME ERROR"

/-- Decimal rendering of a `Nat`, as `snprintf` `%d` produces it. -/
def decimalBytes (n : Nat) : List Nat := (Nat.toDigits 10 n).map Char.toNat

/-- `FF_Sim7000::getGsm7EquivalentLen` (source lines 1470-1525): GSM-7
length of one UTF-8 character given its first three bytes, 0 when the
character is outside the GSM-7 table. -/
def getGsm7EquivalentLen (c1 c2 c3 : Nat) : Nat :=
  if c1 = 10 ∨ c1 = 13 ∨ (32 ≤ c1 ∧ c1 ≤ 90) ∨ c1 = 95 ∨ (97 ≤ c1 ∧ c1 ≤ 122) then 1
  else if c1 = 194 ∧ (c2 = 161 ∨ (163 ≤ c2 ∧ c2 ≤ 165) ∨ c2 = 167 ∨ c2 = 191) then 1
  else if c1 = 195 ∧ ((132 ≤ c2 ∧ c2 ≤ 135) ∨ c2 = 137 ∨ c2 = 145 ∨ c2 = 150 ∨
      c2 = 152 ∨ c2 = 156 ∨ (159 ≤ c2 ∧ c2 ≤ 160) ∨ (164 ≤ c2 ∧ c2 ≤ 166) ∨
      (168 ≤ c2 ∧ c2 ≤ 169) ∨ c2 = 172 ∨ (177 ≤ c2 ∧ c2 ≤ 178) ∨ c2 = 182 ∨
      (184 ≤ c2 ∧ c2 ≤ 185) ∨ c2 = 188) then 1
  else if c1 = 12 ∨ (91 ≤ c1 ∧ c1 ≤ 94) ∨ (123 ≤ c1 ∧ c1 ≤ 126) then 2
  else if c1 = 226 ∧ c2 = 130 ∧ c3 = 172 then 2
  else 0

/-- The scan prefix actually visited by `sendSMS`: `utf8Length` is the
`uint16_t` truncation of `strlen(text)` (source line 744). -/
def scannedText (text : List Nat) : List Nat := text.take (text.length % 65536)

/-- The byte-indexed loop of `sendSMS` (source lines 751-763): walk the
scanned bytes, reading `text[i]`, `text[i+1]`, `text[i+2]` (0 past the
end), accumulating into the `uint16_t` `gsm7Length`; on an unsupported
byte set the length to 0 and stop. -/
def gsm7LengthAux : List Nat → Nat → Nat
  | [], g => g
  | c1 :: rest, g =>
    let l := getGsm7EquivalentLen c1 (rest.getD 0 0) (rest.getD 1 0)
    if l = 0 then 0 else gsm7LengthAux rest ((g + l) % 65536)

/-- `gsm7Length` as computed by `sendSMS` over the scanned text. -/
def gsm7LengthOf (text : List Nat) : Nat := gsm7LengthAux (scannedText text) 0

/-- Per-byte GSM-7 classification values of a byte list, in scan order
(used to state the all-or-nothing property). -/
def gsm7CodesAux : List Nat → List Nat
  | [] => []
  | c1 :: rest =>
    getGsm7EquivalentLen c1 (rest.getD 0 0) (rest.getD 1 0) :: gsm7CodesAux rest

/-- `FF_Sim7000::ucs2MessageLength` (source lines 1538-1548): count the
non-continuation bytes (UTF-8 code points) in a `uint16_t`, times 2 in
`uint16_t` arithmetic. -/
def ucs2MessageLength (text : List Nat) : Nat :=
  (text.countP (fun b => (b &&& 192) != 128) % 65536 * 2) % 65536

/-- The encoded length `sendSMS` plans with: `gsm7Length` when the text
survived the GSM-7 scan, else the UCS-2 length. -/
def encodedLenOf (text : List Nat) : Nat :=
  if gsm7LengthOf text ≠ 0 then gsm7LengthOf text else ucs2MessageLength text

/-- Ceiling division on `Nat`, the spec's `ceil(length / chunkSize)`. -/
def ceilDivNat (a b : Nat) : Nat := (a + b - 1) / b


/-- The member-function-pointer continuations used as `nextStepCb` /
init-table routines, as an enumeration (the bodies run on a later event
and are modeled by their own step functions). -/
inductive NextStep where
  | sendNextInitStep
  | sendSMStext
  | sendNextSmsChunk
  | setIdleStep
  | gotSca
deriving DecidableEq, Repr

/-- An external effect requested by a step: invoking the stored
continuation, the unclassified-line callback, `readSmsMessage` on a
payload line, or the registered SMS-received callback. -/
inductive Event where
  | cont (n : NextStep)
  | line (l : List Nat)
  | smsMsg (l : List Nat)
  | readSms (number date message : List Nat)
deriving DecidableEq, Repr

/-- The Session state: the `FF_Sim7000` member variables touched by the
modeled routines, plus `txLog`, the byte stream written to the serial
transport.  Tracing/debug flags, wall-clock date strings and pin/speed
configuration are out-of-scope collaborators and are omitted. -/
structure Session where
  lastAnswer : List Nat := []
  lastCommand : List Nat := []
  expectedAnswer : List Nat := []
  inReceive : Bool := false
  inWait : Bool := false
  inWaitSmsReady : Bool := false
  ignoreErrors : Bool := false
  gsmStatus : Nat := 5
  restartNeeded : Bool := false
  restartReason : Nat := 5
  gsmIdle : Nat := 3
  smsReady : Bool := false
  nextLineIsSmsMessage : Bool := false
  modemSpeaking : Bool := false
  nextStepCb : Option NextStep := none
  stepPtr : Nat := 0
  stepRepeatCount : Nat := 0
  stepMaxRepeatcount : Nat := 0
  startTime : Nat := 0
  gsmTimeout : Nat := 0
  commandCount : Nat := 0
  smsSentCount : Nat := 0
  smsForwardedCount : Nat := 0
  smsMsgId : Nat := 0
  smsMsgIndex : Nat := 0
  smsMsgCount : Nat := 0
  smsChunkSize : Nat := 0
  gsm7Length : Nat := 0
  lastSentNumber : List Nat := []
  lastSentMessage : List Nat := []
  lastReceivedNumber : List Nat := []
  lastReceivedDate : List Nat := []
  lastReceivedMessage : List Nat := []
  hasReadSmsCb : Bool := false
  hasRecvLineCb : Bool := false
  txLog : List Nat := []
deriving DecidableEq, Repr

/-- The state set up by the `FF_Sim7000` constructor (source lines
243-287): everything cleared, status/reason `SIM7000_NEED_INIT` (5),
mode `SIM7000_STARTING` (3). -/
def initialSession : Session := {}

/-- `FF_Sim7000::setIdle` (source lines 1370-1376): mode
`SIM7000_IDLE` (0), leave receive mode, clear the line buffer. -/
def setIdleM (st : Session) : Session :=
  { st with gsmIdle := 0, inReceive := false, lastAnswer := [] }

/-- Number of milliseconds elapsed since `t0`, as the 32-bit unsigned
expression `millis() - t0` computes it (the clock is monotone, so
`now ≥ t0` at every use). -/
def elapsedMs (now t0 : Nat) : Nat := (now - t0) % 4294967296

/-- `FF_Sim7000::sendCommand(const char*, ...)` (source lines
1308-1334): arm the pending-command slot, reset the retry counter only
when the command text differs from the previous one, write the command
plus CR when the text is non-empty. -/
def sendCommandM (st : Session) (command : List Nat) (nextStep : Option NextStep)
    (resp : List Nat) (cdeTimeout : Nat) (rep : Nat) (now : Nat) : Session :=
  let st := { st with
    commandCount := st.commandCount + 1
    gsmTimeout := cdeTimeout
    gsmStatus := 1
    nextStepCb := nextStep
    stepMaxRepeatcount := rep % 256
    expectedAnswer := resp.take 10 }
  let st :=
    if command ≠ [] then
      { st with
        stepRepeatCount := if command ≠ st.lastCommand then 0 else st.stepRepeatCount
        lastCommand := command.take 30
        lastAnswer := []
        txLog := st.txLog ++ command ++ [13] }
    else st
  { st with
    startTime := now
    inReceive := true
    inWait := false
    inWaitSmsReady := false
    nextLineIsSmsMessage := false }

/-- `FF_Sim7000::sendCommand(const uint8_t, ...)` (source lines
1347-1360): like the string version but writes a single byte, always
clears the answer buffer and does not touch the repeat machinery,
`lastCommand`, `inWait` or `nextLineIsSmsMessage`. -/
def sendCommandByteM (st : Session) (command : Nat) (nextStep : Option NextStep)
    (resp : List Nat) (cdeTimeout : Nat) (now : Nat) : Session :=
  { st with
    commandCount := st.commandCount + 1
    gsmTimeout := cdeTimeout
    gsmStatus := 1
    nextStepCb := nextStep
    expectedAnswer := resp.take 10
    lastAnswer := []
    txLog := st.txLog ++ [command % 256]
    startTime := now
    inReceive := true
    inWaitSmsReady := false }

/-- One row of the `initSteps` table (struct `initStepsStruct`,
source lines 194-200). -/
structure InitStep where
  routine : Option NextStep
  command : List Nat
  waitFor : List Nat
  timeout : Nat
  repeats : Nat
deriving DecidableEq, Repr

/-- The `initSteps` table (source lines 208-223); `SIM7000_CMD_TIMEOUT`
is 4000 ms. -/
def initStepsM : List InitStep := [
  ⟨none, strBytes "AT",                [], 1000,  9⟩,
  ⟨none, strBytes "AT+IPR=115200",     [], 4000,  0⟩,
  ⟨none, strBytes "ATE0",              [], 4000,  0⟩,
  ⟨none, strBytes "AT+CMEE=2",         [], 4000,  0⟩,
  ⟨none, strBytes "AT+CMGF=0",         [], 4000,  0⟩,
  ⟨none, strBytes "AT+CNMP=51",        [], 4000,  0⟩,
  ⟨none, strBytes "AT+CREG=2",         [], 4000,  0⟩,
  ⟨none, strBytes "AT+CSDH=1",         [], 4000,  0⟩,
  ⟨none, strBytes "AT+CMGD=1,4",       [], 10000, 0⟩,
  ⟨none, strBytes "AT+CNMI=2,2,0,2,0", [], 4000,  0⟩,
  ⟨none, strBytes "AT+CREG?",          [], 4000,  0⟩,
  ⟨none, strBytes "AT+CLTS=1",         [], 4000,  0⟩,
  ⟨none, strBytes "AT+CSCA?",          strBytes "+CSCA:", 10000, 0⟩,
  ⟨some NextStep.gotSca, [],           [], 4000,  0⟩]

/-- `FF_Sim7000::sendCurrentInitStep` (source lines 950-973).  A step
naming a custom routine is invoked directly (returned as an event).
Otherwise the command goes through `sendCommand` with continuation
`sendNextInitStep`; note that on the branch with a non-empty `waitFor`
the source places the table's repeat count outside the call (comma
operator, line 963), so the default repeat 0 is what is passed there. -/
def sendCurrentInitStepM (st : Session) (now : Nat) : Session × Option Event :=
  if h : st.stepPtr < initStepsM.length then
    let step := initStepsM.get ⟨st.stepPtr, h⟩
    match step.routine with
    | some r => (st, some (Event.cont r))
    | none =>
      if step.waitFor ≠ [] then
        (sendCommandM st step.command (some NextStep.sendNextInitStep)
          step.waitFor step.timeout 0 now, none)
      else
        (sendCommandM st step.command (some NextStep.sendNextInitStep)
          okAnswer step.timeout step.repeats now, none)
  else (st, none)

/-- `FF_Sim7000::deleteSMS` (source lines 985-991): format
`AT+CMGD=<index>,<flag>` and send it with continuation `setIdle`,
default "OK" answer, 20 s timeout. -/
def deleteSMSM (st : Session) (idx flg : Nat) (now : Nat) : Session :=
  sendCommandM st
    (strBytes "AT+CMGD=" ++ decimalBytes idx ++ strBytes "," ++ decimalBytes flg)
    (some NextStep.setIdleStep) okAnswer 20000 0 now

/-- `FF_Sim7000::sendSMS` (source lines 743-805): classify the text,
compute the chunk plan into the `uint8_t` fields, record the last sent
number/message, and dispatch the first (or only) `sendOneSmsChunk` call.
Returns the updated state and the `(text, msgId, msgCount, msgIndex)`
arguments of that first dispatch.  The wall-clock `lastSentDate` is an
out-of-scope collaborator and is not modeled. -/
def sendSMSM (st : Session) (number text : List Nat) :
    Session × (List Nat × Nat × Nat × Nat) :=
  let g := gsm7LengthOf text
  let st := { st with gsm7Length := g }
  let st : Session :=
    if g ≠ 0 then
      if g > 160 then
        { st with smsMsgCount := ((g + 151) / 152) % 256,
                  smsMsgId := (st.smsMsgId + 1) % 65536,
                  smsChunkSize := 152 }
      else { st with smsMsgCount := 0 }
    else
      let u := ucs2MessageLength text
      if u > 70 then
        { st with smsMsgCount := ((u + 66) / 67) % 256,
                  smsMsgId := (st.smsMsgId + 1) % 65536,
                  smsChunkSize := 67 }
      else { st with smsMsgCount := 0 }
  let st : Session := { st with lastSentNumber := number, lastSentMessage := text }
  if st.smsMsgCount = 0 then
    (st, (text, 0, 0, 0))
  else
    let st : Session := { st with smsMsgIndex := 1 % 256 }
    (st, (substringM text 0 st.smsChunkSize, st.smsMsgId, st.smsMsgCount, 1))

/-- `FF_Sim7000::sendNextSmsChunk` (source lines 817-826): while chunks
remain, post-increment `smsMsgIndex` (`uint8_t`), take the substring at
`startPos = smsMsgIndex * smsChunkSize` (`uint16_t`), and dispatch it;
otherwise `setIdle`.  Returns the `(text, msgId, msgCount, msgIndex)`
arguments of the dispatched `sendOneSmsChunk` call, if any. -/
def sendNextSmsChunkM (st : Session) :
    Session × Option (List Nat × Nat × Nat × Nat) :=
  if st.smsMsgCount ≠ 0 then
    if st.smsMsgIndex < st.smsMsgCount then
      let startPos := (st.smsMsgIndex * st.smsChunkSize) % 65536
      let st' := { st with smsMsgIndex := (st.smsMsgIndex + 1) % 256 }
      (st', some (substringM st.lastSentMessage startPos (startPos + st.smsChunkSize),
        st.smsMsgId, st.smsMsgCount, st'.smsMsgIndex))
    else (setIdleM st, none)
  else (setIdleM st, none)

/-- `FF_Sim7000::sendOneSmsChunk` (source lines 842-863).  The external
codec's `encodePDU` result is the oracle `encLen`; on a negative result
the routine just reports and returns, otherwise it enters Sending mode,
bumps the sent counter and issues `AT+CMGS=<len>` waiting for the `>`
prompt with continuation `sendSMStext`. -/
def sendOneSmsChunkM (st : Session) (number text : List Nat)
    (msgId msgCount msgIndex : Nat) (encLen : Int) (now : Nat) : Session :=
  if encLen < 0 then st
  else
    let st := { st with gsmIdle := 1, smsSentCount := st.smsSentCount + 1 }
    sendCommandM st (strBytes "AT+CMGS=" ++ decimalBytes encLen.toNat)
      (some NextStep.sendSMStext) (strBytes ">") 10000 0 now

/-- The external PDU codec's decode outcome, passed as an oracle to
`readSmsMessage`. -/
structure DecodeResult where
  ok : Bool
  sender : List Nat
  timeStamp : List Nat
  text : List Nat
deriving DecidableEq, Repr

/-- `FF_Sim7000::readSmsMessage` (source lines 1426-1442): on a
successful decode record sender/date/text, bump the forwarded counter
and fire the receive callback; in every case finish with
`deleteSMS(1, 2)`. -/
def readSmsMessageM (st : Session) (dec : DecodeResult) (now : Nat) :
    Session × Option Event :=
  let st1 :=
    if dec.ok then
      { st with lastReceivedNumber := dec.sender,
                lastReceivedDate := dec.timeStamp,
                lastReceivedMessage := dec.text,
                smsForwardedCount := st.smsForwardedCount + 1 }
    else st
  let ev :=
    if dec.ok ∧ st.hasReadSmsCb then
      some (Event.readSms dec.sender dec.timeStamp dec.text)
    else none
  (deleteSMSM st1 1 2 now, ev)

/-- The per-byte body of the `doLoop` read loop (source lines 407-619),
for one byte `c` read from the modem: discard NUL/CR, fail with
`SIM7000_TOO_LONG` (2) once the buffer holds `sizeof(lastAnswer)-2`
(498) bytes, classify a completed line on LF (CREG status line first —
the network-time block is compiled out by default — then the pending
command, then SMS payload/indicator, then the unclassified-line
callback), otherwise append and check the single-character prompt. -/
def processChar (st : Session) (c : Nat) (now : Nat) : Session × Option Event :=
  let st := { st with modemSpeaking := true }
  if c ≠ 0 ∧ c ≠ 13 then
    if st.lastAnswer.length ≥ 498 then
      ({ st with gsmStatus := 2, lastAnswer := [] }, none)
    else if c = 10 then
      match strstrIdx st.lastAnswer cregMsg with
      | some p =>
        let off := if containsSub st.lastCommand cregQuery then 9 else 7
        let r := st.lastAnswer.getD (p + off) 0
        ({ st with smsReady := (r == 49) || (r == 53), lastAnswer := [] }, none)
      | none =>
        let matched :=
          st.inReceive ∧
            ((st.expectedAnswer = okAnswer ∧ st.lastAnswer = st.expectedAnswer) ∨
             (st.expectedAnswer ≠ okAnswer ∧ containsSub st.lastAnswer st.expectedAnswer))
        if matched then
          let st := { st with gsmStatus := 0 }
          match st.nextStepCb with
          | some cb => (st, some (Event.cont cb))
          | none => (setIdleM st, none)
        else if st.inReceive ∧ st.ignoreErrors = false ∧
            (containsSub st.lastAnswer cmsError ∨ containsSub st.lastAnswer cmeError) then
          (setIdleM { st with gsmStatus := 4, restartNeeded := true, restartReason := 4 },
           none)
        else if st.lastAnswer ≠ [] then
          if st.nextLineIsSmsMessage then
            ({ st with lastAnswer := [], nextLineIsSmsMessage := false },
             some (Event.smsMsg st.lastAnswer))
          else if containsSub st.lastAnswer smsIndicator then
            ({ st with lastCommand := st.lastAnswer.take 30,
                       nextLineIsSmsMessage := true, lastAnswer := [],
                       inReceive := true, gsmTimeout := 2000, startTime := now }, none)
          else
            ({ st with lastAnswer := [] },
             if st.hasRecvLineCb then some (Event.line st.lastAnswer) else none)
        else (st, none)
    else
      let st := { st with lastAnswer := st.lastAnswer ++ [c] }
      if st.expectedAnswer.length = 1 ∧ c = st.expectedAnswer.getD 0 0 then
        let st := { st with gsmStatus := 0 }
        match st.nextStepCb with
        | some cb => (st, some (Event.cont cb))
        | none => (setIdleM st, none)
      else (st, none)
  else (st, none)

/-- The pending-command deadline check of `doLoop` (source lines
621-654): once elapsed time reaches `gsmTimeout`, either ignore the
error (continuation/Idle), or retry the current init step while retries
remain (incrementing the `uint8_t` retry counter), or fail with
`SIM7000_BAD_ANSWER` (3) when partial data sits in the buffer and
`SIM7000_TIMEOUT` (1) when nothing was received, setting the restart
flag and reason and going idle. -/
def doLoopTimeoutTick (st : Session) (now : Nat) : Session × Option Event :=
  if st.inReceive ∧ elapsedMs now st.startTime ≥ st.gsmTimeout then
    if st.ignoreErrors then
      match st.nextStepCb with
      | some cb => (st, some (Event.cont cb))
      | none => (setIdleM st, none)
    else if st.stepRepeatCount < st.stepMaxRepeatcount then
      sendCurrentInitStepM { st with stepRepeatCount := (st.stepRepeatCount + 1) % 256 } now
    else if st.lastAnswer ≠ [] then
      (setIdleM { st with gsmStatus := 3, restartNeeded := true, restartReason := 3 }, none)
    else
      (setIdleM { st with gsmStatus := 1, restartNeeded := true, restartReason := 1 }, none)
  else (st, none)

theorem gsm7CodesAux_length (l : List Nat) : (gsm7CodesAux l).length = l.length := by
  induction l with
  | nil => rfl
  | cons c rest ih => simp [gsm7CodesAux, ih]

theorem gsm7LengthAux_eq_zero (l : List Nat) (acc : Nat)
    (h : 0 ∈ gsm7CodesAux l) : gsm7LengthAux l acc = 0 := by
  induction l generalizing acc with
  | nil => simp [gsm7CodesAux] at h
  | cons c rest ih =>
    simp only [gsm7CodesAux, List.mem_cons] at h
    simp only [gsm7LengthAux]
    rcases h with h | h
    · rw [if_pos h.symm]
    · split
      · rfl
      · exact ih _ h

theorem gsm7LengthAux_eq_sum (l : List Nat) (acc : Nat) (hacc : acc < 65536)
    (h : 0 ∉ gsm7CodesAux l) :
    gsm7LengthAux l acc = (acc + (gsm7CodesAux l).sum) % 65536 := by
  induction l generalizing acc with
  | nil =>
    simp [gsm7LengthAux, gsm7CodesAux, Nat.mod_eq_of_lt hacc]
  | cons c rest ih =>
    simp only [gsm7CodesAux, List.mem_cons, not_or] at h
    simp only [gsm7LengthAux, gsm7CodesAux, List.sum_cons]
    rw [if_neg (fun hz => h.1 hz.symm)]
    rw [ih _ (Nat.mod_lt _ (by norm_num)) h.2]
    rw [Nat.mod_add_mod]
    ring_nf

theorem gsm7CodesAux_getD (l : List Nat) (i : Nat) (hi : i < l.length) :
    (gsm7CodesAux l).getD i 0
      = getGsm7EquivalentLen (l.getD i 0) (l.getD (i + 1) 0) (l.getD (i + 2) 0) := by
  induction l generalizing i with
  | nil => simp at hi
  | cons c rest ih =>
    cases i with
    | zero => simp [gsm7CodesAux]
    | succ n =>
      simp only [gsm7CodesAux, List.getD_cons_succ]
      exact ih n (by simpa using hi)

/-- C2: encoding selection in `sendSMS` is all-or-nothing: one byte of
the scanned text classified 0 by `getGsm7EquivalentLen` forces
`gsm7Length` to 0, the planned length to the UCS-2 length (UTF-8
code-point count times 2), and, conversely, a non-zero `gsm7Length` is
always the full sum of the per-byte classifications, never a partial
mix. -/
theorem claim_C2 (st : Session) (number text : List Nat)
    (h : ∃ i, i < (scannedText text).length ∧
      getGsm7EquivalentLen ((scannedText text).getD i 0)
        ((scannedText text).getD (i + 1) 0) ((scannedText text).getD (i + 2) 0) = 0) :
    gsm7LengthOf text = 0
    ∧ (sendSMSM st number text).1.gsm7Length = 0
    ∧ encodedLenOf text = ucs2MessageLength text
    ∧ (sendSMSM st number text).1.smsMsgCount
        = (if ucs2MessageLength text > 70 then ((ucs2MessageLength text + 66) / 67) % 256 else 0)
    ∧ (∀ t : List Nat, gsm7LengthOf t ≠ 0 →
        gsm7LengthOf t = (gsm7CodesAux (scannedText t)).sum % 65536 ∧
        ∀ x ∈ gsm7CodesAux (scannedText t), x ≠ 0) := by
  obtain ⟨i, hi, h0⟩ := h
  have hmem : 0 ∈ gsm7CodesAux (scannedText text) := by
    have hlen : i < (gsm7CodesAux (scannedText text)).length := by
      rw [gsm7CodesAux_length]; exact hi
    have hg := gsm7CodesAux_getD (scannedText text) i hi
    rw [h0] at hg
    rw [List.getD_eq_getElem _ _ hlen] at hg
    exact hg ▸ List.getElem_mem hlen
  have hz : gsm7LengthOf text = 0 := gsm7LengthAux_eq_zero _ 0 hmem
  have hall : ∀ t : List Nat, gsm7LengthOf t ≠ 0 →
      gsm7LengthOf t = (gsm7CodesAux (scannedText t)).sum % 65536 ∧
      ∀ x ∈ gsm7CodesAux (scannedText t), x ≠ 0 := by
    intro t ht
    by_cases hmt : 0 ∈ gsm7CodesAux (scannedText t)
    · exact absurd (gsm7LengthAux_eq_zero _ 0 hmt) ht
    · refine ⟨?_, fun x hx hx0 => hmt (hx0 ▸ hx)⟩
      simpa using gsm7LengthAux_eq_sum (scannedText t) 0 (by norm_num) hmt
  refine ⟨hz, ?_, ?_, ?_, hall⟩
  · simp only [sendSMSM, hz]
    repeat' split
    all_goals rfl
  · simp [encodedLenOf, hz]
  · simp only [sendSMSM, hz]
    repeat' split
    all_goals simp_all

/-- Witness for C2 at the one-byte text 0x60 (backtick, outside the
GSM-7 table): the whole message is accounted as UCS-2 of length 2. -/
theorem claim_C2_witness :
    gsm7LengthOf [96] = 0 ∧ encodedLenOf [96] = ucs2MessageLength [96] := by
  have h := claim_C2 initialSession [] [96] ⟨0, by decide, by decide⟩
  exact ⟨h.1, h.2.2.1⟩

/-- Counterexample for C3: the code's 16-bit length is the code-point
count times 2, hence always even, so no message of exactly 71 UCS-2
units exists. -/
theorem claim_C3_cex : ¬ ∃ text : List Nat, ucs2MessageLength text = 71 := by
  rintro ⟨t, ht⟩
  have h2 : 2 ∣ ucs2MessageLength t := by
    unfold ucs2MessageLength
    exact (Nat.dvd_mod_iff (by norm_num)).mpr (dvd_mul_left 2 _)
  omega

/-- C3 as amended: 160 GSM-7 units are sent unsplit, 161 give 2 chunks
of size 152 with the multipart id incremented; 70 UCS-2 units are sent
unsplit and 72 units (the smallest length above 70, lengths being even)
give 2 chunks of size 67 with the multipart id incremented. -/
theorem claim_C3 (st : Session) (number t160 t161 t70 t72 : List Nat)
    (h160 : gsm7LengthOf t160 = 160) (h161 : gsm7LengthOf t161 = 161)
    (h70a : gsm7LengthOf t70 = 0) (h70b : ucs2MessageLength t70 = 70)
    (h72a : gsm7LengthOf t72 = 0) (h72b : ucs2MessageLength t72 = 72) :
    ((sendSMSM st number t160).1.smsMsgCount = 0
      ∧ (sendSMSM st number t160).2 = (t160, 0, 0, 0)
      ∧ (sendSMSM st number t160).1.smsMsgId = st.smsMsgId)
    ∧ ((sendSMSM st number t161).1.smsMsgCount = 2
      ∧ (sendSMSM st number t161).1.smsChunkSize = 152
      ∧ (sendSMSM st number t161).1.smsMsgId = (st.smsMsgId + 1) % 65536)
    ∧ ((sendSMSM st number t70).1.smsMsgCount = 0
      ∧ (sendSMSM st number t70).2 = (t70, 0, 0, 0)
      ∧ (sendSMSM st number t70).1.smsMsgId = st.smsMsgId)
    ∧ ((sendSMSM st number t72).1.smsMsgCount = 2
      ∧ (sendSMSM st number t72).1.smsChunkSize = 67
      ∧ (sendSMSM st number t72).1.smsMsgId = (st.smsMsgId + 1) % 65536) := by
  refine ⟨?_, ?_, ?_, ?_⟩
  · simp [sendSMSM, h160]
  · simp [sendSMSM, h161]
  · simp [sendSMSM, h70a, h70b]
  · simp [sendSMSM, h72a, h72b]

/-- Witness for C3 at 160/161 repetitions of 'a' and 35/36 repetitions
of the non-GSM-7 byte 0x60. -/
theorem claim_C3_witness :
    (sendSMSM initialSession [] (List.replicate 160 97)).1.smsMsgCount = 0
    ∧ (sendSMSM initialSession [] (List.replicate 161 97)).1.smsChunkSize = 152
    ∧ (sendSMSM initialSession [] (List.replicate 35 96)).1.smsMsgCount = 0
    ∧ (sendSMSM initialSession [] (List.replicate 36 96)).1.smsChunkSize = 67 := by
  have h := claim_C3 initialSession [] (List.replicate 160 97) (List.replicate 161 97)
    (List.replicate 35 96) (List.replicate 36 96)
    (by decide) (by decide) (by decide) (by decide) (by decide) (by decide)
  exact ⟨h.1.1, h.2.1.2.1, h.2.2.1.1, h.2.2.2.2.1⟩

/-- C4 as amended: a non-terminator byte arriving with the line buffer
at its 498-byte bound makes the framer record `SIM7000_TOO_LONG` (2)
and clear the buffer, classifying no partial line; it does NOT set the
restart-needed flag, does NOT latch the restart reason, and leaves the
pending command armed. -/
theorem claim_C4 (st : Session) (c now : Nat)
    (hc0 : c ≠ 0) (hc13 : c ≠ 13) (hlen : st.lastAnswer.length ≥ 498) :
    processChar st c now
      = ({ st with modemSpeaking := true, gsmStatus := 2, lastAnswer := [] }, none)
    ∧ (processChar st c now).1.restartNeeded = st.restartNeeded
    ∧ (processChar st c now).1.restartReason = st.restartReason
    ∧ (processChar st c now).1.inReceive = st.inReceive
    ∧ (processChar st c now).1.nextStepCb = st.nextStepCb := by
  have h : processChar st c now
      = ({ st with modemSpeaking := true, gsmStatus := 2, lastAnswer := [] }, none) := by
    simp [processChar, hc0, hc13, hlen]
  exact ⟨h, by rw [h], by rw [h], by rw [h], by rw [h]⟩

/-- Witness for C4: buffer full with 498 'a' bytes, pending command
armed, fed a 'b'. -/
theorem claim_C4_witness :
    (processChar { initialSession with
                   lastAnswer := List.replicate 498 97,
                   inReceive := true } 98 0).1.gsmStatus = 2
    ∧ (processChar { initialSession with
                     lastAnswer := List.replicate 498 97,
                     inReceive := true } 98 0).1.lastAnswer = [] := by
  have h := claim_C4 { initialSession with
                       lastAnswer := List.replicate 498 97,
                       inReceive := true } 98 0 (by decide) (by decide) (by simp)
  rw [h.1]
  exact ⟨rfl, rfl⟩

/-- Counterexample for C4: at the same input the claim's required
effects do not happen — the restart flag stays clear, the latched
reason stays `SIM7000_NEED_INIT` (5), and the pending command is still
in flight. -/
theorem claim_C4_cex :
    (processChar { initialSession with
                   lastAnswer := List.replicate 498 97,
                   inReceive := true,
                   nextStepCb := some NextStep.sendNextInitStep } 98 0).1.gsmStatus = 2
    ∧ (processChar { initialSession with
                     lastAnswer := List.replicate 498 97,
                     inReceive := true,
                     nextStepCb := some NextStep.sendNextInitStep } 98 0).1.restartNeeded = false
    ∧ (processChar { initialSession with
                     lastAnswer := List.replicate 498 97,
                     inReceive := true,
                     nextStepCb := some NextStep.sendNextInitStep } 98 0).1.restartReason ≠ 2
    ∧ (processChar { initialSession with
                     lastAnswer := List.replicate 498 97,
                     inReceive := true,
                     nextStepCb := some NextStep.sendNextInitStep } 98 0).1.inReceive = true
    ∧ (processChar { initialSession with
                     lastAnswer := List.replicate 498 97,
                     inReceive := true,
                     nextStepCb := some NextStep.sendNextInitStep } 98 0).1.nextStepCb
        = some NextStep.sendNextInitStep := by
  decide

theorem sendSMSM_gsm7_big (st : Session) (number text : List Nat)
    (hg : gsm7LengthOf text ≠ 0) (hgt : gsm7LengthOf text > 160)
    (hne : ((gsm7LengthOf text + 151) / 152) % 256 ≠ 0) :
    sendSMSM st number text
      = ({ st with gsm7Length := gsm7LengthOf text,
                   smsMsgCount := ((gsm7LengthOf text + 151) / 152) % 256,
                   smsMsgId := (st.smsMsgId + 1) % 65536,
                   smsChunkSize := 152,
                   lastSentNumber := number, lastSentMessage := text,
                   smsMsgIndex := 1 },
         (substringM text 0 152, (st.smsMsgId + 1) % 65536,
          ((gsm7LengthOf text + 151) / 152) % 256, 1)) := by
  simp [sendSMSM, hg, hgt, hne]

theorem sendSMSM_ucs2_big (st : Session) (number text : List Nat)
    (hg : gsm7LengthOf text = 0) (hgt : ucs2MessageLength text > 70)
    (hne : ((ucs2MessageLength text + 66) / 67) % 256 ≠ 0) :
    sendSMSM st number text
      = ({ st with gsm7Length := 0,
                   smsMsgCount := ((ucs2MessageLength text + 66) / 67) % 256,
                   smsMsgId := (st.smsMsgId + 1) % 65536,
                   smsChunkSize := 67,
                   lastSentNumber := number, lastSentMessage := text,
                   smsMsgIndex := 1 },
         (substringM text 0 67, (st.smsMsgId + 1) % 65536,
          ((ucs2MessageLength text + 66) / 67) % 256, 1)) := by
  simp [sendSMSM, hg, hgt, hne]

/-- Counterexample for C1 at 100 repetitions of '{' (0x7b, a 2-unit
GSM-7 character): the encoded length is 200, the plan is 2 chunks of
152, but the chunks are cut at byte positions of the 100-byte text, so
the second chunk is empty and the final chunk's clamped substring end
is 100, not the encoded length 200. -/
theorem claim_C1_cex :
    encodedLenOf (List.replicate 100 123) = 200
    ∧ (sendSMSM initialSession [] (List.replicate 100 123)).1.smsMsgCount = 2
    ∧ (sendSMSM initialSession [] (List.replicate 100 123)).1.smsChunkSize = 152
    ∧ (sendNextSmsChunkM (sendSMSM initialSession [] (List.replicate 100 123)).1).2
        = some ([], 1, 2, 2)
    ∧ min (2 * 152) (List.replicate 100 123).length ≠ encodedLenOf (List.replicate 100 123) := by
  decide

/-- C1 as amended: whenever the encoded length exceeds the
single-message capacity, `sendSMS` computes `smsMsgCount` as
`ceil(encodedLength / chunkSize)` (as long as that count fits the
`uint8_t` field), the successive `sendOneSmsChunk` /
`sendNextSmsChunk` dispatches walk the text in `chunkSize`-byte
substrings, the final chunk's plan position starts before the encoded
end, and the dispatch after the last chunk sends nothing — all of this
for every such text; additionally, when the encoded length equals the
byte length of the text (for example a pure 1-unit GSM-7 message), the
final chunk's clamped substring end equals the encoded length exactly.
(In general the substring ends are byte offsets, not encoded offsets —
see the counterexample.) -/
theorem claim_C1 (st : Session) (number text : List Nat) (L cs : Nat)
    (hL : L = encodedLenOf text)
    (hcs : cs = if gsm7LengthOf text ≠ 0 then 152 else 67)
    (hcap : L > if gsm7LengthOf text ≠ 0 then 160 else 70)
    (hcnt : ceilDivNat L cs < 256) :
    (sendSMSM st number text).1.smsMsgCount = ceilDivNat L cs
    ∧ (sendSMSM st number text).1.smsChunkSize = cs
    ∧ (sendSMSM st number text).2
        = (substringM text 0 cs, (sendSMSM st number text).1.smsMsgId,
           (sendSMSM st number text).1.smsMsgCount, 1)
    ∧ (∀ i, 1 ≤ i → i < (sendSMSM st number text).1.smsMsgCount →
        sendNextSmsChunkM { (sendSMSM st number text).1 with smsMsgIndex := i }
          = ({ (sendSMSM st number text).1 with smsMsgIndex := i + 1 },
             some (substringM text (i * cs) (i * cs + cs),
                   (sendSMSM st number text).1.smsMsgId,
                   (sendSMSM st number text).1.smsMsgCount, i + 1)))
    ∧ (L = text.length →
        min ((sendSMSM st number text).1.smsMsgCount * cs) text.length = L)
    ∧ ((sendSMSM st number text).1.smsMsgCount - 1) * cs < L
    ∧ (sendNextSmsChunkM { (sendSMSM st number text).1 with
          smsMsgIndex := (sendSMSM st number text).1.smsMsgCount }).2 = none := by
  by_cases hg : gsm7LengthOf text = 0
  · -- UCS-2 path: cs = 67, capacity 70
    have hLu : L = ucs2MessageLength text := by
      rw [hL]; simp [encodedLenOf, hg]
    have hcs' : cs = 67 := by simp [hcs, hg]
    have hgt : ucs2MessageLength text > 70 := by
      rw [← hLu]; simpa [hg] using hcap
    have hceil : ceilDivNat L cs = (ucs2MessageLength text + 66) / 67 := by
      rw [hcs', hLu]; unfold ceilDivNat; omega
    have hlt : (ucs2MessageLength text + 66) / 67 < 256 := by rw [← hceil]; exact hcnt
    have hmod : ((ucs2MessageLength text + 66) / 67) % 256
        = (ucs2MessageLength text + 66) / 67 := Nat.mod_eq_of_lt hlt
    have hne : ((ucs2MessageLength text + 66) / 67) % 256 ≠ 0 := by
      rw [hmod]; omega
    have hr := sendSMSM_ucs2_big st number text hg hgt hne
    rw [hr]
    simp only [hmod]
    refine ⟨by rw [hceil], by rw [hcs'], by rw [hcs'], ?_, ?_, ?_, ?_⟩
    · intro i h1 hi
      have hi' : i < (ucs2MessageLength text + 66) / 67 := hi
      have hp1 : (i * 67) % 65536 = i * 67 := Nat.mod_eq_of_lt (by omega)
      have hp2 : (i + 1) % 256 = i + 1 := Nat.mod_eq_of_lt (by omega)
      simp [sendNextSmsChunkM, hne, hmod, hi', hp1, hp2, hcs']
      omega
    · intro heq
      rw [hcs', hLu, ← heq, hLu]
      omega
    · rw [hcs', hLu]
      omega
    · simp [sendNextSmsChunkM, setIdleM]
  · -- GSM-7 path: cs = 152, capacity 160
    have hLg : L = gsm7LengthOf text := by
      rw [hL]; simp [encodedLenOf, hg]
    have hcs' : cs = 152 := by simp [hcs, hg]
    have hgt : gsm7LengthOf text > 160 := by
      rw [← hLg]; simpa [hg] using hcap
    have hceil : ceilDivNat L cs = (gsm7LengthOf text + 151) / 152 := by
      rw [hcs', hLg]; unfold ceilDivNat; omega
    have hlt : (gsm7LengthOf text + 151) / 152 < 256 := by rw [← hceil]; exact hcnt
    have hmod : ((gsm7LengthOf text + 151) / 152) % 256
        = (gsm7LengthOf text + 151) / 152 := Nat.mod_eq_of_lt hlt
    have hne : ((gsm7LengthOf text + 151) / 152) % 256 ≠ 0 := by
      rw [hmod]; omega
    have hr := sendSMSM_gsm7_big st number text hg hgt hne
    rw [hr]
    simp only [hmod]
    refine ⟨by rw [hceil], by rw [hcs'], by rw [hcs'], ?_, ?_, ?_, ?_⟩
    · intro i h1 hi
      have hi' : i < (gsm7LengthOf text + 151) / 152 := hi
      have hp1 : (i * 152) % 65536 = i * 152 := Nat.mod_eq_of_lt (by omega)
      have hp2 : (i + 1) % 256 = i + 1 := Nat.mod_eq_of_lt (by omega)
      simp [sendNextSmsChunkM, hne, hmod, hi', hp1, hp2, hcs']
      omega
    · intro heq
      rw [hcs', hLg, ← heq, hLg]
      omega
    · rw [hcs', hLg]
      omega
    · simp [sendNextSmsChunkM, setIdleM]

/-- Witness for C1 at 161 repetitions of 'a' (161 1-unit GSM-7
characters): 2 chunks of 152 and the final clamped end is 161. -/
theorem claim_C1_witness :
    (sendSMSM initialSession [] (List.replicate 161 97)).1.smsMsgCount = ceilDivNat 161 152
    ∧ min ((sendSMSM initialSession [] (List.replicate 161 97)).1.smsMsgCount * 152)
        (List.replicate 161 97).length = 161 := by
  have h := claim_C1 initialSession [] (List.replicate 161 97) 161 152
    (by decide) (by decide) (by decide) (by decide)
  exact ⟨h.1, h.2.2.2.2.1 (by decide)⟩

/-- C7: a completed line carrying "+CREG: " at position `p` has its
status digit read at `p + 9` after a just-issued "+CREG?" query and at
`p + 7` otherwise; `smsReady` becomes true exactly for digits '1' (49)
and '5' (53); the line is consumed (buffer cleared, no event, nothing
else changed). -/
theorem claim_C7 (st : Session) (now p : Nat)
    (hlen : st.lastAnswer.length < 498)
    (hp : strstrIdx st.lastAnswer cregMsg = some p) :
    processChar st 10 now
      = ({ st with modemSpeaking := true,
                   smsReady := ((st.lastAnswer.getD
                       (p + if containsSub st.lastCommand cregQuery then 9 else 7) 0 == 49)
                     || (st.lastAnswer.getD
                       (p + if containsSub st.lastCommand cregQuery then 9 else 7) 0 == 53)),
                   lastAnswer := [] }, none)
    ∧ ((processChar st 10 now).1.smsReady = true ↔
        (st.lastAnswer.getD (p + if containsSub st.lastCommand cregQuery then 9 else 7) 0 = 49
         ∨ st.lastAnswer.getD (p + if containsSub st.lastCommand cregQuery then 9 else 7) 0 = 53)) := by
  have h : processChar st 10 now
      = ({ st with modemSpeaking := true,
                   smsReady := ((st.lastAnswer.getD
                       (p + if containsSub st.lastCommand cregQuery then 9 else 7) 0 == 49)
                     || (st.lastAnswer.getD
                       (p + if containsSub st.lastCommand cregQuery then 9 else 7) 0 == 53)),
                   lastAnswer := [] }, none) := by
    simp only [processChar, hp]
    have hnl : ¬ st.lastAnswer.length ≥ 498 := by omega
    simp [hnl]
  refine ⟨h, ?_⟩
  rw [h]
  simp

/-- Witness for C7: the solicited reply "+CREG: 0,1" right after the
"AT+CREG?" query sets the ready flag. -/
theorem claim_C7_witness :
    (processChar { initialSession with
                   lastAnswer := strBytes "+CREG: 0,1",
                   lastCommand := strBytes "AT+CREG?" } 10 0).1.smsReady = true := by
  have h := claim_C7 { initialSession with
                       lastAnswer := strBytes "+CREG: 0,1",
                       lastCommand := strBytes "AT+CREG?" } 0 0 (by decide) (by decide)
  rw [h.1]
  decide

/-- C9: `readSmsMessage` issues exactly one delete-stored command
(`AT+CMGD=1,2`) whether or not the codec decode succeeded; on success
it records sender/timestamp/text, increments the forwarded counter and
fires the registered receive callback with those three values. -/
theorem claim_C9 (st : Session) (dec : DecodeResult) (now : Nat) :
    (readSmsMessageM st dec now).1.txLog = st.txLog ++ strBytes "AT+CMGD=1,2" ++ [13]
    ∧ (readSmsMessageM st dec now).1.lastCommand = strBytes "AT+CMGD=1,2"
    ∧ (readSmsMessageM st dec now).1.commandCount = st.commandCount + 1
    ∧ (readSmsMessageM st dec now).1.nextStepCb = some NextStep.setIdleStep
    ∧ (dec.ok = true →
        (readSmsMessageM st dec now).1.smsForwardedCount = st.smsForwardedCount + 1
        ∧ (readSmsMessageM st dec now).1.lastReceivedNumber = dec.sender
        ∧ (readSmsMessageM st dec now).1.lastReceivedDate = dec.timeStamp
        ∧ (readSmsMessageM st dec now).1.lastReceivedMessage = dec.text
        ∧ (st.hasReadSmsCb = true →
            (readSmsMessageM st dec now).2
              = some (Event.readSms dec.sender dec.timeStamp dec.text)))
    ∧ (dec.ok = false →
        (readSmsMessageM st dec now).1.smsForwardedCount = st.smsForwardedCount
        ∧ (readSmsMessageM st dec now).2 = none) := by
  have hcmd : strBytes "AT+CMGD=" ++ decimalBytes 1 ++ strBytes "," ++ decimalBytes 2
      = strBytes "AT+CMGD=1,2" := by decide
  have hdel : ∀ s : Session, deleteSMSM s 1 2 now
      = sendCommandM s (strBytes "AT+CMGD=1,2") (some NextStep.setIdleStep) okAnswer 20000 0 now := by
    intro s
    unfold deleteSMSM
    rw [hcmd]
  have hne2 : strBytes "AT+CMGD=1,2" ≠ [] := by decide
  have htake : (strBytes "AT+CMGD=1,2").take 30 = strBytes "AT+CMGD=1,2" := by decide
  cases hok : dec.ok <;>
    simp [readSmsMessageM, hdel, sendCommandM, hok, hne2, htake, List.append_assoc]

/-- Witness for C9: a successful decode with a registered callback. -/
theorem claim_C9_witness :
    (readSmsMessageM { initialSession with hasReadSmsCb := true }
        ⟨true, [49], [50], [51]⟩ 0).1.txLog = strBytes "AT+CMGD=1,2" ++ [13]
    ∧ (readSmsMessageM { initialSession with hasReadSmsCb := true }
        ⟨true, [49], [50], [51]⟩ 0).2 = some (Event.readSms [49] [50] [51]) := by
  have h := claim_C9 { initialSession with hasReadSmsCb := true } ⟨true, [49], [50], [51]⟩ 0
  exact ⟨h.1, (h.2.2.2.2.1 rfl).2.2.2.2 rfl⟩

/-- C10: when the external codec's `encodePDU` returns a negative
result, `sendOneSmsChunk` changes nothing: no bytes are written, no
command is issued, the sent counter keeps its value and the session
mode is untouched; the mode is set to Sending (1) only on a
non-negative encode result. -/
theorem claim_C10 (st : Session) (number text : List Nat)
    (msgId msgCount msgIndex : Nat) (encLen : Int) (now : Nat)
    (hneg : encLen < 0) :
    sendOneSmsChunkM st number text msgId msgCount msgIndex encLen now = st
    ∧ (sendOneSmsChunkM st number text msgId msgCount msgIndex encLen now).txLog = st.txLog
    ∧ (sendOneSmsChunkM st number text msgId msgCount msgIndex encLen now).smsSentCount
        = st.smsSentCount
    ∧ (sendOneSmsChunkM st number text msgId msgCount msgIndex encLen now).gsmIdle = st.gsmIdle
    ∧ (sendOneSmsChunkM st number text msgId msgCount msgIndex encLen now).commandCount
        = st.commandCount
    ∧ (∀ e2 : Int, 0 ≤ e2 →
        (sendOneSmsChunkM st number text msgId msgCount msgIndex e2 now).gsmIdle = 1
        ∧ (sendOneSmsChunkM st number text msgId msgCount msgIndex e2 now).smsSentCount
            = st.smsSentCount + 1) := by
  have h : sendOneSmsChunkM st number text msgId msgCount msgIndex encLen now = st := by
    simp [sendOneSmsChunkM, hneg]
  refine ⟨h, by rw [h], by rw [h], by rw [h], by rw [h], ?_⟩
  intro e2 he2
  simp only [sendOneSmsChunkM, sendCommandM, if_neg (not_lt.mpr he2)]
  split <;> exact ⟨rfl, rfl⟩

/-- Witness for C10 at the codec error -3 (GSM7 text too long). -/
theorem claim_C10_witness :
    sendOneSmsChunkM initialSession [] [] 0 0 0 (-3) 0 = initialSession := by
  exact (claim_C10 initialSession [] [] 0 0 0 (-3) 0 (by decide)).1

theorem initStepsM_facts :
    ∀ s ∈ initStepsM, s.command.length ≤ 30 ∧ s.waitFor.length ≤ 10 ∧ s.repeats ≤ 255
      ∧ (s.waitFor ≠ [] → s.repeats = 0) ∧ (s.routine = none → s.command ≠ []) := by
  decide

/-- C8: every init-table entry without a custom routine is issued
through the command sequencer with the entry's command text, its
expected pattern (default "OK" when none is configured), its timeout
and its retry budget, with `sendNextInitStep` as the continuation.
(On the branch with a configured pattern the source passes the default
repeat 0 — comma slip at line 963 — but the only such entry has budget
0, so the issued budget still equals the configured one for every
entry of this table.) -/
theorem claim_C8 (st : Session) (now i : Nat)
    (hi : i < initStepsM.length)
    (hstep : st.stepPtr = i)
    (hroutine : (initStepsM[i]).routine = none) :
    (sendCurrentInitStepM st now).2 = none
    ∧ (sendCurrentInitStepM st now).1.txLog
        = st.txLog ++ (initStepsM[i]).command ++ [13]
    ∧ (sendCurrentInitStepM st now).1.lastCommand = (initStepsM[i]).command
    ∧ (sendCurrentInitStepM st now).1.expectedAnswer
        = (if (initStepsM[i]).waitFor = [] then okAnswer else (initStepsM[i]).waitFor)
    ∧ (sendCurrentInitStepM st now).1.gsmTimeout = (initStepsM[i]).timeout
    ∧ (sendCurrentInitStepM st now).1.stepMaxRepeatcount = (initStepsM[i]).repeats
    ∧ (sendCurrentInitStepM st now).1.nextStepCb = some NextStep.sendNextInitStep
    ∧ (sendCurrentInitStepM st now).1.inReceive = true := by
  subst hstep
  obtain ⟨h30, h10, h255, hwr, hcmdne⟩ :=
    initStepsM_facts (initStepsM[st.stepPtr]) (List.getElem_mem hi)
  have hcne := hcmdne hroutine
  have htc : (initStepsM[st.stepPtr]).command.take 30 = (initStepsM[st.stepPtr]).command :=
    List.take_of_length_le h30
  have hta : okAnswer.take 10 = okAnswer := by decide
  have htw : (initStepsM[st.stepPtr]).waitFor.take 10 = (initStepsM[st.stepPtr]).waitFor :=
    List.take_of_length_le h10
  by_cases hw : (initStepsM[st.stepPtr]).waitFor = []
  · have hrep : (initStepsM[st.stepPtr]).repeats % 256 = (initStepsM[st.stepPtr]).repeats :=
      Nat.mod_eq_of_lt (by omega)
    simp [sendCurrentInitStepM, hi, hroutine, hw, sendCommandM, hcne, htc, hta, hrep,
      List.append_assoc]
  · have hrep0 := hwr hw
    simp [sendCurrentInitStepM, hi, hroutine, hw, sendCommandM, hcne, htc, htw, hrep0,
      List.append_assoc]

/-- Witness for C8 at the first init step ("AT", default "OK" answer,
1000 ms, 9 retries). -/
theorem claim_C8_witness :
    (sendCurrentInitStepM initialSession 0).1.txLog = strBytes "AT" ++ [13]
    ∧ (sendCurrentInitStepM initialSession 0).1.expectedAnswer = okAnswer
    ∧ (sendCurrentInitStepM initialSession 0).1.gsmTimeout = 1000
    ∧ (sendCurrentInitStepM initialSession 0).1.stepMaxRepeatcount = 9 := by
  have h := claim_C8 initialSession 0 0 (by decide) rfl (by decide)
  refine ⟨?_, ?_, ?_, ?_⟩
  · rw [h.2.1]; decide
  · rw [h.2.2.2.1]; decide
  · rw [h.2.2.2.2.1]; decide
  · rw [h.2.2.2.2.2.1]; decide

/-- C6: with a pending command outstanding, a completed line matches
the generic "OK" pattern only by exact equality and any other pattern
by substring occurrence; on a match the command resolves successfully
(continuation event, or Idle when none is stored); on a non-matching
line carrying a device error marker (errors not ignored) the command
resolves as `SIM7000_CM_ERROR` (4) with restart requested and the mode
goes Idle. -/
theorem claim_C6 (st : Session) (now : Nat)
    (hlen : st.lastAnswer.length < 498)
    (hcreg : strstrIdx st.lastAnswer cregMsg = none)
    (hin : st.inReceive = true) :
    ((if st.expectedAnswer = okAnswer then st.lastAnswer = st.expectedAnswer
      else containsSub st.lastAnswer st.expectedAnswer = true) →
      (processChar st 10 now).1.gsmStatus = 0
      ∧ (st.nextStepCb = none →
          (processChar st 10 now).1.gsmIdle = 0
          ∧ (processChar st 10 now).1.inReceive = false
          ∧ (processChar st 10 now).2 = none)
      ∧ (∀ cb, st.nextStepCb = some cb →
          (processChar st 10 now).2 = some (Event.cont cb)
          ∧ (processChar st 10 now).1.gsmIdle = st.gsmIdle))
    ∧ (¬ (if st.expectedAnswer = okAnswer then st.lastAnswer = st.expectedAnswer
          else containsSub st.lastAnswer st.expectedAnswer = true) →
        st.ignoreErrors = false →
        (containsSub st.lastAnswer cmsError = true ∨ containsSub st.lastAnswer cmeError = true) →
        (processChar st 10 now).1.gsmStatus = 4
        ∧ (processChar st 10 now).1.restartNeeded = true
        ∧ (processChar st 10 now).1.restartReason = 4
        ∧ (processChar st 10 now).1.gsmIdle = 0
        ∧ (processChar st 10 now).1.inReceive = false
        ∧ (processChar st 10 now).2 = none) := by
  have hnl : ¬ st.lastAnswer.length ≥ 498 := by omega
  constructor
  · intro hm
    have hmatch : st.inReceive = true ∧
        ((st.expectedAnswer = okAnswer ∧ st.lastAnswer = st.expectedAnswer) ∨
         (st.expectedAnswer ≠ okAnswer ∧ containsSub st.lastAnswer st.expectedAnswer = true)) := by
      refine ⟨hin, ?_⟩
      by_cases hexp : st.expectedAnswer = okAnswer
      · exact Or.inl ⟨hexp, by simpa [hexp] using hm⟩
      · exact Or.inr ⟨hexp, by simpa [hexp] using hm⟩
    cases hcb : st.nextStepCb with
    | none =>
      have h : processChar st 10 now
          = (setIdleM { st with modemSpeaking := true, gsmStatus := 0 }, none) := by
        simp [processChar, hcreg, hnl, hmatch, hcb]
      rw [h]
      simp [setIdleM, hcb]
    | some cb0 =>
      have h : processChar st 10 now
          = ({ st with modemSpeaking := true, gsmStatus := 0 }, some (Event.cont cb0)) := by
        simp [processChar, hcreg, hnl, hmatch, hcb]
      rw [h]
      simp [hcb]
  · intro hnm hig herr
    have hnd : ¬ ((st.expectedAnswer = okAnswer ∧ st.lastAnswer = st.expectedAnswer) ∨
        (st.expectedAnswer ≠ okAnswer ∧ containsSub st.lastAnswer st.expectedAnswer = true)) := by
      rintro (⟨hexp, heq⟩ | ⟨hexp, hsub⟩)
      · exact hnm (by simp [hexp, heq])
      · exact hnm (by simp [hexp, hsub])
    have h : processChar st 10 now
        = (setIdleM { st with
                      modemSpeaking := true,
                      gsmStatus := 4,
                      restartNeeded := true,
                      restartReason := 4 }, none) := by
      simp [processChar, hcreg, hnl, hnd, hin, hig, herr]
    rw [h]
    simp [setIdleM]

/-- Witness for C6: the exact "OK" line resolving a pending command
with no continuation, going Idle. -/
theorem claim_C6_witness :
    (processChar { initialSession with
                   lastAnswer := strBytes "OK",
                   expectedAnswer := strBytes "OK",
                   inReceive := true } 10 0).1.gsmIdle = 0
    ∧ (processChar { initialSession with
                     lastAnswer := strBytes "OK",
                     expectedAnswer := strBytes "OK",
                     inReceive := true } 10 0).1.gsmStatus = 0 := by
  have h := claim_C6 { initialSession with
                       lastAnswer := strBytes "OK",
                       expectedAnswer := strBytes "OK",
                       inReceive := true } 0 (by decide) (by decide) rfl
  have h1 := h.1 (by decide)
  exact ⟨(h1.2.1 rfl).1, h1.1⟩

theorem sendCommandM_repeatCount (s : Session) (cmd : List Nat) (ns : Option NextStep)
    (resp : List Nat) (tmo rep now2 : Nat) :
    (sendCommandM s cmd ns resp tmo rep now2).stepRepeatCount
      = if cmd ≠ [] ∧ cmd ≠ s.lastCommand then 0 else s.stepRepeatCount := by
  by_cases h1 : cmd = []
  · simp [sendCommandM, h1]
  · by_cases h2 : cmd = s.lastCommand
    · simp only [sendCommandM, h1, h2]
      simp only [if_neg (by simp [h2] : ¬ (¬ s.lastCommand = [] ∧ ¬ s.lastCommand = s.lastCommand))]
      split <;> simp
    · simp [sendCommandM, h1, h2]

/-- C5: on a pending-command deadline, ignored errors go straight to
the continuation (or Idle); otherwise while retries remain the current
init step is resent with the retry counter incremented and never
exceeding the budget (and when the pending command is the current init
step, the identical bytes are rewritten); otherwise the outcome is
`SIM7000_TIMEOUT` (1) exactly when the buffer is empty (nothing
received) and `SIM7000_BAD_ANSWER` (3) exactly when partial data sits
in the buffer, both requesting a restart with that reason and going
Idle.  Additionally, `sendCommand` resets the retry counter to zero
precisely when a non-empty command text differs from the previously
sent one. -/
theorem claim_C5 (st : Session) (now : Nat)
    (hin : st.inReceive = true)
    (hto : elapsedMs now st.startTime ≥ st.gsmTimeout)
    (hmax : st.stepMaxRepeatcount ≤ 255) :
    (st.ignoreErrors = true →
      (st.nextStepCb = none → doLoopTimeoutTick st now = (setIdleM st, none))
      ∧ (∀ cb, st.nextStepCb = some cb →
          doLoopTimeoutTick st now = (st, some (Event.cont cb))))
    ∧ (st.ignoreErrors = false → st.stepRepeatCount < st.stepMaxRepeatcount →
        (doLoopTimeoutTick st now).1.stepRepeatCount ≤ st.stepMaxRepeatcount
        ∧ (doLoopTimeoutTick st now).1.restartNeeded = st.restartNeeded
        ∧ (∀ hp : st.stepPtr < initStepsM.length,
            (initStepsM[st.stepPtr]).routine = none →
            st.lastCommand = (initStepsM[st.stepPtr]).command →
            (doLoopTimeoutTick st now).1.txLog = st.txLog ++ st.lastCommand ++ [13]
            ∧ (doLoopTimeoutTick st now).1.lastCommand = st.lastCommand
            ∧ (doLoopTimeoutTick st now).1.stepRepeatCount = st.stepRepeatCount + 1))
    ∧ (st.ignoreErrors = false → ¬ st.stepRepeatCount < st.stepMaxRepeatcount →
        (st.lastAnswer = [] →
          (doLoopTimeoutTick st now).1.gsmStatus = 1
          ∧ (doLoopTimeoutTick st now).1.restartNeeded = true
          ∧ (doLoopTimeoutTick st now).1.restartReason = 1
          ∧ (doLoopTimeoutTick st now).1.gsmIdle = 0
          ∧ (doLoopTimeoutTick st now).1.inReceive = false)
        ∧ (st.lastAnswer ≠ [] →
          (doLoopTimeoutTick st now).1.gsmStatus = 3
          ∧ (doLoopTimeoutTick st now).1.restartNeeded = true
          ∧ (doLoopTimeoutTick st now).1.restartReason = 3
          ∧ (doLoopTimeoutTick st now).1.gsmIdle = 0
          ∧ (doLoopTimeoutTick st now).1.inReceive = false))
    ∧ (∀ cmd resp : List Nat, ∀ ns : Option NextStep, ∀ tmo rep now2 : Nat,
        (sendCommandM st cmd ns resp tmo rep now2).stepRepeatCount
          = if cmd ≠ [] ∧ cmd ≠ st.lastCommand then 0 else st.stepRepeatCount) := by
  refine ⟨?_, ?_, ?_, fun cmd resp ns tmo rep now2 =>
    sendCommandM_repeatCount st cmd ns resp tmo rep now2⟩
  · intro hig
    constructor
    · intro hcb
      simp [doLoopTimeoutTick, hin, hto, hig, hcb]
    · intro cb hcb
      simp [doLoopTimeoutTick, hin, hto, hig, hcb]
  · intro hig hlt
    have hc1 : (st.stepRepeatCount + 1) % 256 = st.stepRepeatCount + 1 :=
      Nat.mod_eq_of_lt (by omega)
    have hr : doLoopTimeoutTick st now
        = sendCurrentInitStepM { st with stepRepeatCount := st.stepRepeatCount + 1 } now := by
      simp [doLoopTimeoutTick, hin, hto, hig, hlt, hc1]
    rw [hr]
    by_cases hp : st.stepPtr < initStepsM.length
    · cases hro : (initStepsM[st.stepPtr]).routine with
      | some r0 =>
        have h : sendCurrentInitStepM { st with stepRepeatCount := st.stepRepeatCount + 1 } now
            = ({ st with stepRepeatCount := st.stepRepeatCount + 1 }, some (Event.cont r0)) := by
          simp [sendCurrentInitStepM, hp, hro]
        rw [h]
        refine ⟨?_, rfl, fun hp2 hro2 _ => Option.noConfusion (hro.symm.trans hro2)⟩
        show st.stepRepeatCount + 1 ≤ st.stepMaxRepeatcount
        omega
      | none =>
        obtain ⟨h30, h10, h255, hwr, hcmdne⟩ :=
          initStepsM_facts (initStepsM[st.stepPtr]) (List.getElem_mem hp)
        have hcne := hcmdne hro
        have htc : (initStepsM[st.stepPtr]).command.take 30 = (initStepsM[st.stepPtr]).command :=
          List.take_of_length_le h30
        by_cases hw : (initStepsM[st.stepPtr]).waitFor = []
        · have h : sendCurrentInitStepM { st with stepRepeatCount := st.stepRepeatCount + 1 } now
              = (sendCommandM { st with stepRepeatCount := st.stepRepeatCount + 1 }
                  (initStepsM[st.stepPtr]).command (some NextStep.sendNextInitStep)
                  okAnswer (initStepsM[st.stepPtr]).timeout (initStepsM[st.stepPtr]).repeats now,
                 none) := by
            simp [sendCurrentInitStepM, hp, hro, hw]
          rw [h]
          refine ⟨?_, ?_, ?_⟩
          · rw [sendCommandM_repeatCount]
            split
            · omega
            · show st.stepRepeatCount + 1 ≤ st.stepMaxRepeatcount
              omega
          · simp [sendCommandM, hcne]
          · intro hp2 hro2 hcmd
            have hlcne : st.lastCommand ≠ [] := by rw [hcmd]; exact hcne
            have htc2 : st.lastCommand.take 30 = st.lastCommand := by rw [hcmd]; exact htc
            refine ⟨?_, ?_, ?_⟩
            · simp [sendCommandM, ← hcmd, hlcne, List.append_assoc]
            · simp [sendCommandM, ← hcmd, hlcne, htc2]
            · rw [sendCommandM_repeatCount]
              simp [hcmd]
        · have h : sendCurrentInitStepM { st with stepRepeatCount := st.stepRepeatCount + 1 } now
              = (sendCommandM { st with stepRepeatCount := st.stepRepeatCount + 1 }
                  (initStepsM[st.stepPtr]).command (some NextStep.sendNextInitStep)
                  (initStepsM[st.stepPtr]).waitFor (initStepsM[st.stepPtr]).timeout 0 now,
                 none) := by
            simp [sendCurrentInitStepM, hp, hro, hw]
          rw [h]
          refine ⟨?_, ?_, ?_⟩
          · rw [sendCommandM_repeatCount]
            split
            · omega
            · show st.stepRepeatCount + 1 ≤ st.stepMaxRepeatcount
              omega
          · simp [sendCommandM, hcne]
          · intro hp2 hro2 hcmd
            have hlcne : st.lastCommand ≠ [] := by rw [hcmd]; exact hcne
            have htc2 : st.lastCommand.take 30 = st.lastCommand := by rw [hcmd]; exact htc
            refine ⟨?_, ?_, ?_⟩
            · simp [sendCommandM, ← hcmd, hlcne, List.append_assoc]
            · simp [sendCommandM, ← hcmd, hlcne, htc2]
            · rw [sendCommandM_repeatCount]
              simp [hcmd]
    · have h : sendCurrentInitStepM { st with stepRepeatCount := st.stepRepeatCount + 1 } now
          = ({ st with stepRepeatCount := st.stepRepeatCount + 1 }, none) := by
        simp [sendCurrentInitStepM, hp]
      rw [h]
      refine ⟨?_, rfl, fun hp2 _ _ => absurd hp2 hp⟩
      show st.stepRepeatCount + 1 ≤ st.stepMaxRepeatcount
      omega
  · intro hig hnlt
    constructor
    · intro hemp
      simp [doLoopTimeoutTick, hin, hto, hig, hnlt, hemp, setIdleM]
    · intro hne
      simp [doLoopTimeoutTick, hin, hto, hig, hnlt, hne, setIdleM]

/-- Witness for C5: a pending command with empty buffer and exhausted
budget times out with restart requested and reason `SIM7000_TIMEOUT`. -/
theorem claim_C5_witness :
    (doLoopTimeoutTick { initialSession with inReceive := true } 0).1.gsmStatus = 1
    ∧ (doLoopTimeoutTick { initialSession with inReceive := true } 0).1.restartNeeded = true
    ∧ (doLoopTimeoutTick { initialSession with inReceive := true } 0).1.restartReason = 1 := by
  have h := claim_C5 { initialSession with inReceive := true } 0 rfl (by decide) (by decide)
  have h3 := (h.2.2.1 rfl (by decide)).1 rfl
  exact ⟨h3.1, h3.2.1, h3.2.2.1⟩
